import Mathlib

/-!
Verification development for the GestureDrop repository
(`gesture_drop.py` and `gesture_file_server.py`).

The two Python files are embedded shallowly: coordinates and wall-clock
timestamps become rationals, the per-frame mutation of the module-level
globals becomes explicit state passing through pure step functions, and
the external capabilities (key injection, OS clipboard, screen capture)
become an explicit record of per-frame outcomes.  Exception handlers in
the source become `Option`-valued outcomes: `none` models the call
raising, which the source catches and absorbs.
-/

/-- A single hand landmark: normalized x, y coordinates
(the z coordinate is never read by the code under study). -/
structure Landmark where
  x : ℚ
  y : ℚ
deriving DecidableEq

/-- The discrete gesture events the loops can emit in a frame.
"None" of the spec is modelled by the event simply being absent. -/
inductive GestureEvent
  | ScrollUp
  | ScrollDown
  | NextTab
  | PrevTab
  | Copy
  | Paste
  | Screenshot
deriving DecidableEq

/-- Motion-family events: the scroll and tab-switch gestures governed
by the shared motion cooldown clock. -/
def isMotionEvent : GestureEvent → Bool
  | GestureEvent.ScrollUp => true
  | GestureEvent.ScrollDown => true
  | GestureEvent.NextTab => true
  | GestureEvent.PrevTab => true
  | _ => false

/-- Hand-shape events: the gestures decided by the finger vector
(fist hold, open-palm hold, pinch). -/
def isHandShapeEvent : GestureEvent → Bool
  | GestureEvent.Copy => true
  | GestureEvent.Paste => true
  | GestureEvent.Screenshot => true
  | _ => false

/-- The `type` field of the shared clipboard dict:
"text", "image" or "empty". -/
inductive ClipKind
  | empty
  | text
  | image
deriving DecidableEq

/-- The `shared_clipboard` dict of both files: a `type` tag and a string
`value` (text, or a base64-encoded image). -/
structure SharedClipboard where
  type : ClipKind
  value : String
deriving DecidableEq

/-- Outcomes of the external capabilities invoked during one frame.
`none` / `false` models the corresponding call raising an exception,
which the source catches. `clipboard_read` is `pyperclip.paste()`,
`clipboard_write_ok` is `pyperclip.copy(...)` (its failure is absorbed
where it is called), `screenshot` is the captured image, already
base64-encoded, with `none` modelling a capture/save failure. -/
structure ExtCalls where
  hotkey_copy_ok : Bool
  clipboard_read : Option String
  clipboard_write_ok : Bool
  hotkey_paste_ok : Bool
  screenshot : Option String
deriving DecidableEq

/-- Landmark lookup as the `lm.landmark[i]` indexing used by the finger
helpers: MediaPipe hands carry 21 landmarks, any other index raises,
which the helpers catch. -/
def landmarkAt (lm : Fin 21 → Landmark) : ℕ → Option Landmark :=
  fun i => if h : i < 21 then some (lm ⟨i, h⟩) else none

namespace GestureDrop

/-! Constants of `gesture_drop.py` (CONFIG block). -/

def SMOOTHING_WINDOW : ℕ := 6
def EMA_ALPHA : ℚ := 25/100
def SCROLL_THRESHOLD : ℚ := 6/100
def TAB_THRESHOLD : ℚ := 9/100
def COOLDOWN : ℚ := 9/10
def GESTURE_HOLD_TIME : ℚ := 45/100
def SCREENSHOT_COOLDOWN : ℚ := 25/10

/-- The module-level mutable globals of `gesture_drop.py` that the frame
loop reads and writes (the overlay label strings are omitted: they only
feed the on-screen rendering, which is out of scope). -/
structure State where
  shared_clipboard : SharedClipboard
  last_action_time : ℚ
  pos_history : List (ℚ × ℚ)
  ema_dx : ℚ
  ema_dy : ℚ
  fist_start : Option ℚ
  open_start : Option ℚ
  copy_confirmed : Bool
  last_screenshot_time : ℚ
deriving DecidableEq

/-- `safe_copy_to_shared`: empty text returns early, otherwise the two
dict fields are assigned (type first, then value). -/
def safe_copy_to_shared (slot : SharedClipboard) (text : String) : SharedClipboard :=
  if text = "" then slot
  else { type := ClipKind.text, value := text }

/-- The sequence of clipboard-slot states a concurrent reader can
observe while `safe_copy_to_shared` runs: the function performs two
separate dict assignments with no lock, so the state after the first
assignment (new type, old value) is observable between them. -/
def safe_copy_to_shared_microstates (slot : SharedClipboard) (text : String) :
    List SharedClipboard :=
  if text = "" then [slot]
  else [slot, { slot with type := ClipKind.text }, { type := ClipKind.text, value := text }]

/-- `api_get_clipboard` (GET /get_clipboard): returns the slot's type
and value, and does not modify the slot.  Modelled as
slot ↦ (slot after the request, response body). -/
def api_get_clipboard (slot : SharedClipboard) : SharedClipboard × SharedClipboard :=
  (slot, { type := slot.type, value := slot.value })

/-- `api_ip` (GET /ip): returns the local ip; never touches the slot. -/
def api_ip (slot : SharedClipboard) (ip : String) : SharedClipboard × String :=
  (slot, ip)

/-- `finger_states_from_landmarks`, thumb entry: extended (1) iff
tip 4 has x strictly less than joint 2's x; a failed landmark lookup
yields 0 (the bare `except` appends 0). -/
def thumb_state (lm : ℕ → Option Landmark) : ℕ :=
  match lm 4, lm 2 with
  | some tip, some joint => if tip.x < joint.x then 1 else 0
  | _, _ => 0

/-- `finger_states_from_landmarks`, non-thumb entry for tip index `t`
(8, 12, 16 or 20): extended (1) iff the tip's y is strictly less than
the y of joint `t - 2`; lookup failure yields 0. -/
def finger_state (lm : ℕ → Option Landmark) (t : ℕ) : ℕ :=
  match lm t, lm (t - 2) with
  | some tip, some joint => if tip.y < joint.y then 1 else 0
  | _, _ => 0

/-- `finger_states_from_landmarks`: the five finger flags
(thumb, index, middle, ring, pinky), 1 = open, 0 = closed. -/
def finger_states_from_landmarks (lm : ℕ → Option Landmark) : List ℕ :=
  [thumb_state lm, finger_state lm 8, finger_state lm 12,
   finger_state lm 16, finger_state lm 20]

/-- `update_motion_and_detect`: EMA-smooth the windowed displacement,
then (cooldown permitting) classify vertical scroll before horizontal
tab switch, resetting `last_action_time` on fire. -/
def update_motion_and_detect (s : State) (dx dy now : ℚ) :
    State × Option GestureEvent :=
  let s := { s with
    ema_dx := EMA_ALPHA * dx + (1 - EMA_ALPHA) * s.ema_dx,
    ema_dy := EMA_ALPHA * dy + (1 - EMA_ALPHA) * s.ema_dy }
  if now - s.last_action_time < COOLDOWN then (s, none)
  else
    let abs_dx := |s.ema_dx|
    let abs_dy := |s.ema_dy|
    if abs_dy > SCROLL_THRESHOLD ∧ abs_dy > abs_dx then
      if s.ema_dy < 0 then
        ({ s with last_action_time := now }, some GestureEvent.ScrollUp)
      else
        ({ s with last_action_time := now }, some GestureEvent.ScrollDown)
    else if abs_dx > TAB_THRESHOLD ∧ abs_dx > abs_dy then
      if s.ema_dx > 0 then
        ({ s with last_action_time := now }, some GestureEvent.NextTab)
      else
        ({ s with last_action_time := now }, some GestureEvent.PrevTab)
    else (s, none)

/-- Body of the fired copy branch (the try block at the heart of the
COPY gesture): inject ctrl-c (failure skips everything), read the OS
clipboard with failure absorbed into empty text, publish non-empty text
to the shared slot, and set `copy_confirmed`. -/
def copy_action (s : State) (ext : ExtCalls) : State :=
  if ext.hotkey_copy_ok then
    let text := ext.clipboard_read.getD ""
    let s := if text ≠ "" then { s with shared_clipboard := safe_copy_to_shared s.shared_clipboard text } else s
    { s with copy_confirmed := true }
  else s

/-- COPY gesture block of the main loop: fist (all five flags 0) starts
or continues the hold; a hold past `GESTURE_HOLD_TIME` with
`copy_confirmed` unset runs the copy action and clears the hold start;
any open finger clears the hold start.  The emitted event mirrors the
`gesture_label = "Copy"` assignment, reached only when ctrl-c did not
raise. -/
def copy_phase (s : State) (total_f : ℕ) (now : ℚ) (ext : ExtCalls) :
    State × Option GestureEvent :=
  if total_f = 0 then
    match s.fist_start with
    | none => ({ s with fist_start := some now }, none)
    | some t0 =>
      if now - t0 > GESTURE_HOLD_TIME ∧ s.copy_confirmed = false then
        let s := copy_action s ext
        ({ s with fist_start := none },
         if ext.hotkey_copy_ok then some GestureEvent.Copy else none)
      else (s, none)
  else ({ s with fist_start := none }, none)

/-- Body of the fired paste branch: `safe_set_local_clipboard` absorbs a
`pyperclip.copy` failure internally (so `clipboard_write_ok` cannot
influence the state), ctrl-v failure skips clearing the flag. -/
def paste_action (s : State) (ext : ExtCalls) : State :=
  if ext.hotkey_paste_ok then { s with copy_confirmed := false } else s

/-- PASTE gesture block: open palm (all five flags 1, total 5) drives
the hold; a hold past `GESTURE_HOLD_TIME` with `copy_confirmed` set runs
the paste action and clears the hold start. -/
def paste_phase (s : State) (total_f : ℕ) (now : ℚ) (ext : ExtCalls) :
    State × Option GestureEvent :=
  if total_f = 5 then
    match s.open_start with
    | none => ({ s with open_start := some now }, none)
    | some t0 =>
      if now - t0 > GESTURE_HOLD_TIME ∧ s.copy_confirmed = true then
        let s := paste_action s ext
        ({ s with open_start := none },
         if ext.hotkey_paste_ok then some GestureEvent.Paste else none)
      else (s, none)
  else ({ s with open_start := none }, none)

/-- SCREENSHOT gesture block: thumb and index open, the other three
closed, pinch distance below 0.05 (the source compares the Euclidean
norm; we compare squares, which is equivalent for the nonnegative
norm) and the dedicated screenshot cooldown elapsed.  A capture/save
failure (`ext.screenshot = none`) leaves everything unchanged. -/
def screenshot_phase (s : State) (fingers : List ℕ) (th idx : Landmark)
    (now : ℚ) (ext : ExtCalls) : State × Option GestureEvent :=
  if fingers.getD 0 0 = 1 ∧ fingers.getD 1 0 = 1 ∧ (fingers.drop 2).sum = 0 then
    let pinch_sq := (th.x - idx.x) ^ 2 + (th.y - idx.y) ^ 2
    if pinch_sq < (5/100 : ℚ) ^ 2 ∧ now - s.last_screenshot_time > SCREENSHOT_COOLDOWN then
      match ext.screenshot with
      | some b64 =>
        ({ s with
            shared_clipboard := { type := ClipKind.image, value := b64 },
            last_screenshot_time := now },
         some GestureEvent.Screenshot)
      | none => (s, none)
    else (s, none)
  else (s, none)

/-- The bounded position history after appending the newest index-tip
sample: append, then pop the oldest entry when the window overflows. -/
def push_history (hist : List (ℚ × ℚ)) (x y : ℚ) : List (ℚ × ℚ) :=
  let h := hist ++ [(x, y)]
  if h.length > SMOOTHING_WINDOW then h.tail else h

/-- Horizontal displacement across the retained window
(newest x minus oldest x; 0 with fewer than 2 samples). -/
def window_dx (hist : List (ℚ × ℚ)) : ℚ :=
  if hist.length ≥ 2 then (hist.getLastD (0, 0)).1 - (hist.headD (0, 0)).1 else 0

/-- Vertical displacement across the retained window. -/
def window_dy (hist : List (ℚ × ℚ)) : ℚ :=
  if hist.length ≥ 2 then (hist.getLastD (0, 0)).2 - (hist.headD (0, 0)).2 else 0

/-- One iteration of the main loop on a frame with a detected hand:
push the index tip into the bounded history, compute the windowed
displacement, run motion detection, then the copy, paste and screenshot
blocks in source order. -/
def hand_frame (s : State) (lm : Fin 21 → Landmark) (now : ℚ) (ext : ExtCalls) :
    State × List GestureEvent :=
  let idx := lm 8
  let th := lm 4
  let hist := push_history s.pos_history idx.x idx.y
  let s := { s with pos_history := hist }
  let m := update_motion_and_detect s (window_dx hist) (window_dy hist) now
  let fingers := finger_states_from_landmarks (landmarkAt lm)
  let c := copy_phase m.1 fingers.sum now ext
  let p := paste_phase c.1 fingers.sum now ext
  let sh := screenshot_phase p.1 fingers th idx now ext
  (sh.1, [m.2, c.2, p.2, sh.2].reduceOption)

/-- The "no hand" branch of the main loop: clear the position history
and both hold starts; `copy_confirmed` is deliberately kept. -/
def no_hand_frame (s : State) : State :=
  { s with pos_history := [], fist_start := none, open_start := none }

/-- One full loop iteration: `none` is a frame where MediaPipe reported
no hand landmarks. -/
def frame (s : State) (inp : Option (Fin 21 → Landmark)) (now : ℚ) (ext : ExtCalls) :
    State × List GestureEvent :=
  match inp with
  | some lm => hand_frame s lm now ext
  | none => (no_hand_frame s, [])

end GestureDrop

namespace GestureFileServer

/-! Constants of `gesture_file_server.py` (CONFIG block). -/

def SCROLL_THRESHOLD : ℚ := 8/100
def TAB_THRESHOLD : ℚ := 10/100
def COOLDOWN : ℚ := 1
def SMOOTHING_WINDOW : ℕ := 4
def GESTURE_HOLD_TIME : ℚ := 5/10
def SCREENSHOT_COOLDOWN : ℚ := 3

/-- The module-level mutable globals of `gesture_file_server.py` read
and written per frame (again omitting the overlay label text). -/
structure State where
  shared_clipboard : SharedClipboard
  last_action_time : ℚ
  x_history : List ℚ
  y_history : List ℚ
  fist_start_time : Option ℚ
  open_start_time : Option ℚ
  copy_done : Bool
  last_screenshot_time : ℚ
deriving DecidableEq

/-- `get_clipboard` (GET /get_clipboard): read-only snapshot of the
slot, modelled as slot ↦ (slot after the request, response body). -/
def get_clipboard (slot : SharedClipboard) : SharedClipboard × SharedClipboard :=
  (slot, { type := slot.type, value := slot.value })

/-- `get_ip` (GET /ip): returns the local ip; never touches the slot. -/
def get_ip (slot : SharedClipboard) (ip : String) : SharedClipboard × String :=
  (slot, ip)

/-- A request to POST /upload_clipboard: `json_text` is the "text"
field when the request is JSON and carries one; `image_file` is the
content of an uploaded file field named image, already base64-encoded
(the handler encodes before storing). -/
structure UploadRequest where
  json_text : Option String
  image_file : Option String
deriving DecidableEq

/-- `upload_clipboard` (POST /upload_clipboard): JSON text fully
replaces the slot with a text entry (status 200); otherwise an uploaded
image replaces it with an image entry (status 200); otherwise the slot
is untouched and the handler answers 400. -/
def upload_clipboard (slot : SharedClipboard) (req : UploadRequest) :
    SharedClipboard × ℕ :=
  match req.json_text with
  | some t => ({ type := ClipKind.text, value := t }, 200)
  | none =>
    match req.image_file with
    | some b64 => ({ type := ClipKind.image, value := b64 }, 200)
    | none => (slot, 400)

/-- `get_finger_states`: textually the same finger rules as
`gesture_drop.finger_states_from_landmarks` — thumb by tip-x vs
joint 2's x, the four others by tip-y vs the joint two below, lookup
failure giving 0. -/
def get_finger_states (lm : ℕ → Option Landmark) : List ℕ :=
  [match lm 4, lm 2 with
   | some tip, some joint => if tip.x < joint.x then 1 else 0
   | _, _ => 0,
   match lm 8, lm 6 with
   | some tip, some joint => if tip.y < joint.y then 1 else 0
   | _, _ => 0,
   match lm 12, lm 10 with
   | some tip, some joint => if tip.y < joint.y then 1 else 0
   | _, _ => 0,
   match lm 16, lm 14 with
   | some tip, some joint => if tip.y < joint.y then 1 else 0
   | _, _ => 0,
   match lm 20, lm 18 with
   | some tip, some joint => if tip.y < joint.y then 1 else 0
   | _, _ => 0]

/-- `detect_motion_gesture`: push the index tip into both bounded
histories, take the raw displacement across the window (no EMA in this
file), and classify under the strict `>` cooldown guard, vertical
before horizontal. -/
def detect_motion_gesture (s : State) (x y now : ℚ) :
    State × Option GestureEvent :=
  let xh0 := s.x_history ++ [x]
  let yh0 := s.y_history ++ [y]
  let xh := if xh0.length > SMOOTHING_WINDOW then xh0.tail else xh0
  let yh := if xh0.length > SMOOTHING_WINDOW then yh0.tail else yh0
  let s := { s with x_history := xh, y_history := yh }
  let dx := xh.getLastD 0 - xh.headD 0
  let dy := yh.getLastD 0 - yh.headD 0
  if now - s.last_action_time > COOLDOWN then
    if |dy| > SCROLL_THRESHOLD ∧ |dy| > |dx| then
      if dy < 0 then
        ({ s with last_action_time := now }, some GestureEvent.ScrollUp)
      else
        ({ s with last_action_time := now }, some GestureEvent.ScrollDown)
    else if |dx| > TAB_THRESHOLD ∧ |dx| > |dy| then
      if dx > 0 then
        ({ s with last_action_time := now }, some GestureEvent.NextTab)
      else
        ({ s with last_action_time := now }, some GestureEvent.PrevTab)
    else (s, none)
  else (s, none)

/-- Body of the fired copy branch: ctrl-c failure skips everything,
`pyperclip.paste` failure is absorbed into empty text, non-empty text
replaces the slot (the empty-text branch reassigns the type to itself,
a no-op), then `copy_done` is set. -/
def copy_action (s : State) (ext : ExtCalls) : State :=
  if ext.hotkey_copy_ok then
    let txt := ext.clipboard_read.getD ""
    let s := if txt ≠ "" then
        { s with shared_clipboard := { type := ClipKind.text, value := txt } }
      else s
    { s with copy_done := true }
  else s

/-- COPY block of `main`: the same fist-hold logic as `gesture_drop`,
with this file's hold time and `copy_done` flag. -/
def copy_phase (s : State) (total_fingers : ℕ) (now : ℚ) (ext : ExtCalls) :
    State × Option GestureEvent :=
  if total_fingers = 0 then
    match s.fist_start_time with
    | none => ({ s with fist_start_time := some now }, none)
    | some t0 =>
      if now - t0 > GESTURE_HOLD_TIME ∧ s.copy_done = false then
        let s := copy_action s ext
        ({ s with fist_start_time := none },
         if ext.hotkey_copy_ok then some GestureEvent.Copy else none)
      else (s, none)
  else ({ s with fist_start_time := none }, none)

/-- Body of the fired paste branch: the inner try absorbs a
`pyperclip.copy` failure, ctrl-v failure skips clearing `copy_done`. -/
def paste_action (s : State) (ext : ExtCalls) : State :=
  if ext.hotkey_paste_ok then { s with copy_done := false } else s

/-- PASTE block of `main`: open-palm hold gated on `copy_done`. -/
def paste_phase (s : State) (total_fingers : ℕ) (now : ℚ) (ext : ExtCalls) :
    State × Option GestureEvent :=
  if total_fingers = 5 then
    match s.open_start_time with
    | none => ({ s with open_start_time := some now }, none)
    | some t0 =>
      if now - t0 > GESTURE_HOLD_TIME ∧ s.copy_done = true then
        let s := paste_action s ext
        ({ s with open_start_time := none },
         if ext.hotkey_paste_ok then some GestureEvent.Paste else none)
      else (s, none)
  else ({ s with open_start_time := none }, none)

/-- SCREENSHOT block of `main`: thumb and index open, the other three
closed, thumb-index distance below 0.05 (squared comparison, equivalent
for the nonnegative norm) and its own cooldown elapsed; a capture/save
failure changes nothing. -/
def screenshot_phase (s : State) (fingers : List ℕ) (thumb_tip index_tip : Landmark)
    (now : ℚ) (ext : ExtCalls) : State × Option GestureEvent :=
  if fingers.getD 0 0 = 1 ∧ fingers.getD 1 0 = 1 ∧ (fingers.drop 2).sum = 0 then
    let dist_sq := (thumb_tip.x - index_tip.x) ^ 2 + (thumb_tip.y - index_tip.y) ^ 2
    if dist_sq < (5/100 : ℚ) ^ 2 ∧ now - s.last_screenshot_time > SCREENSHOT_COOLDOWN then
      match ext.screenshot with
      | some b64 =>
        ({ s with
            shared_clipboard := { type := ClipKind.image, value := b64 },
            last_screenshot_time := now },
         some GestureEvent.Screenshot)
      | none => (s, none)
    else (s, none)
  else (s, none)

/-- One iteration of `main` on a frame with a detected hand, in source
order: finger states, copy, paste, screenshot, then motion. -/
def hand_frame (s : State) (lm : Fin 21 → Landmark) (now : ℚ) (ext : ExtCalls) :
    State × List GestureEvent :=
  let index_tip := lm 8
  let thumb_tip := lm 4
  let fingers := get_finger_states (landmarkAt lm)
  let c := copy_phase s fingers.sum now ext
  let p := paste_phase c.1 fingers.sum now ext
  let sh := screenshot_phase p.1 fingers thumb_tip index_tip now ext
  let m := detect_motion_gesture sh.1 index_tip.x index_tip.y now
  (m.1, [c.2, p.2, sh.2, m.2].reduceOption)

/-- One full loop iteration of `main`.  The loop body has no branch for
a frame without hands: such a frame leaves every tracker untouched
(histories, hold starts and `copy_done` all persist). -/
def frame (s : State) (inp : Option (Fin 21 → Landmark)) (now : ℚ) (ext : ExtCalls) :
    State × List GestureEvent :=
  match inp with
  | some lm => hand_frame s lm now ext
  | none => (s, [])

end GestureFileServer

/-! Concrete inputs used to exercise the embeddings. -/

/-- A hand whose 21 landmarks coincide: every finger comparison is a
strict inequality between equal coordinates, so all five flags read
closed. -/
def fistLm : Fin 21 → Landmark :=
  fun _ => { x := mkRat 1 2, y := mkRat 1 2 }

/-- A hand whose coordinates strictly decrease with the landmark index:
each tip lies strictly left of and above its reference joint, so all
five flags read open. -/
def palmLm : Fin 21 → Landmark :=
  fun i => { x := mkRat (21 - (i : ℕ)) 21, y := mkRat (21 - (i : ℕ)) 21 }

/-- A landmark lookup that always fails. -/
def noLm : ℕ → Option Landmark := fun _ => none

/-- A frame on which every external call succeeds. -/
def extOK : ExtCalls :=
  { hotkey_copy_ok := true, clipboard_read := some "txt",
    clipboard_write_ok := true, hotkey_paste_ok := true, screenshot := some "img" }

/-- gesture_drop state with a stale downward EMA left over from before a
hand loss, an armed fist hold, and an expired motion cooldown. -/
def staleFistState : GestureDrop.State :=
  { shared_clipboard := { type := ClipKind.empty, value := "" },
    last_action_time := 0, pos_history := [], ema_dx := 0, ema_dy := -(mkRat 1 5),
    fist_start := some 9, open_start := none, copy_confirmed := false,
    last_screenshot_time := 0 }

/-- gesture_drop state with a stale downward EMA and no pending hold. -/
def staleEmaState : GestureDrop.State :=
  { shared_clipboard := { type := ClipKind.empty, value := "" },
    last_action_time := 0, pos_history := [], ema_dx := 0, ema_dy := -(mkRat 1 5),
    fist_start := none, open_start := none, copy_confirmed := false,
    last_screenshot_time := 0 }

/-- gesture_drop state with zero EMA and an expired cooldown. -/
def idleState : GestureDrop.State :=
  { shared_clipboard := { type := ClipKind.empty, value := "" },
    last_action_time := 0, pos_history := [], ema_dx := 0, ema_dy := 0,
    fist_start := none, open_start := none, copy_confirmed := false,
    last_screenshot_time := 0 }

/-- gesture_drop state whose fist hold started at time 0, unconfirmed. -/
def armedFistState : GestureDrop.State :=
  { shared_clipboard := { type := ClipKind.empty, value := "" },
    last_action_time := 0, pos_history := [], ema_dx := 0, ema_dy := 0,
    fist_start := some 0, open_start := none, copy_confirmed := false,
    last_screenshot_time := 0 }

/-- gesture_drop state whose open-palm hold started at time 0, with a
confirmed copy pending. -/
def armedOpenState : GestureDrop.State :=
  { shared_clipboard := { type := ClipKind.text, value := "txt" },
    last_action_time := 0, pos_history := [], ema_dx := 0, ema_dy := 0,
    fist_start := none, open_start := some 0, copy_confirmed := true,
    last_screenshot_time := 0 }

/-- gesture_file_server state carrying a pending fist hold and a
non-empty history, as left behind just before the hand disappears. -/
def fStaleState : GestureFileServer.State :=
  { shared_clipboard := { type := ClipKind.empty, value := "" },
    last_action_time := 0, x_history := [mkRat 1 2], y_history := [mkRat 1 2],
    fist_start_time := some 3, open_start_time := some 4, copy_done := true,
    last_screenshot_time := 0 }

/-- gesture_file_server state whose fist hold started at time 0. -/
def fArmedFistState : GestureFileServer.State :=
  { shared_clipboard := { type := ClipKind.empty, value := "" },
    last_action_time := 0, x_history := [], y_history := [],
    fist_start_time := some 0, open_start_time := none, copy_done := false,
    last_screenshot_time := 0 }

/-- gesture_file_server state whose open-palm hold started at time 0,
with a completed copy pending. -/
def fArmedOpenState : GestureFileServer.State :=
  { shared_clipboard := { type := ClipKind.text, value := "txt" },
    last_action_time := 0, x_history := [], y_history := [],
    fist_start_time := none, open_start_time := some 0, copy_done := true,
    last_screenshot_time := 0 }

/-- gesture_file_server state with an expired cooldown and empty
histories. -/
def fIdleState : GestureFileServer.State :=
  { shared_clipboard := { type := ClipKind.empty, value := "" },
    last_action_time := 0, x_history := [], y_history := [],
    fist_start_time := none, open_start_time := none, copy_done := false,
    last_screenshot_time := 0 }

/-! Helper lemmas about the gesture_drop embedding. -/

namespace GestureDrop

theorem motion_some_spec (s : State) (dx dy now : ℚ) (e : GestureEvent)
    (h : (update_motion_and_detect s dx dy now).2 = some e) :
    isMotionEvent e = true ∧ COOLDOWN ≤ now - s.last_action_time ∧
      (update_motion_and_detect s dx dy now).1.last_action_time = now := by
  unfold update_motion_and_detect at h ⊢
  dsimp only at h ⊢
  split_ifs at h ⊢ with hcool h1 h2 h3 h4
  all_goals first
    | exact Option.noConfusion h
    | (injection h with h; subst h; exact ⟨rfl, not_lt.mp hcool, rfl⟩)

theorem motion_none_of_recent (s : State) (dx dy now : ℚ)
    (h : now - s.last_action_time < COOLDOWN) :
    (update_motion_and_detect s dx dy now).2 = none := by
  unfold update_motion_and_detect
  dsimp only
  split_ifs
  rfl

end GestureDrop

namespace GestureDrop

theorem motion_scroll_spec (s : State) (dx dy now : ℚ)
    (hcool : COOLDOWN ≤ now - s.last_action_time)
    (hdy : |EMA_ALPHA * dy + (1 - EMA_ALPHA) * s.ema_dy| > SCROLL_THRESHOLD)
    (hdom : |EMA_ALPHA * dy + (1 - EMA_ALPHA) * s.ema_dy| >
      |EMA_ALPHA * dx + (1 - EMA_ALPHA) * s.ema_dx|) :
    (update_motion_and_detect s dx dy now).2 =
      some (if EMA_ALPHA * dy + (1 - EMA_ALPHA) * s.ema_dy < 0 then
        GestureEvent.ScrollUp else GestureEvent.ScrollDown) := by
  unfold update_motion_and_detect
  dsimp only
  rw [if_neg (not_lt.mpr hcool), if_pos ⟨hdy, hdom⟩]
  split_ifs <;> rfl

theorem motion_tab_spec (s : State) (dx dy now : ℚ)
    (hcool : COOLDOWN ≤ now - s.last_action_time)
    (hdx : |EMA_ALPHA * dx + (1 - EMA_ALPHA) * s.ema_dx| > TAB_THRESHOLD)
    (hdom : |EMA_ALPHA * dx + (1 - EMA_ALPHA) * s.ema_dx| >
      |EMA_ALPHA * dy + (1 - EMA_ALPHA) * s.ema_dy|) :
    (update_motion_and_detect s dx dy now).2 =
      some (if EMA_ALPHA * dx + (1 - EMA_ALPHA) * s.ema_dx > 0 then
        GestureEvent.NextTab else GestureEvent.PrevTab) := by
  unfold update_motion_and_detect
  dsimp only
  rw [if_neg (not_lt.mpr hcool),
    if_neg (fun hc => absurd hc.2 (not_lt.mpr (le_of_lt hdom))),
    if_pos ⟨hdx, hdom⟩]
  split_ifs <;> rfl

theorem motion_tie_none (s : State) (dx dy now : ℚ)
    (htie : |EMA_ALPHA * dx + (1 - EMA_ALPHA) * s.ema_dx| =
      |EMA_ALPHA * dy + (1 - EMA_ALPHA) * s.ema_dy|) :
    (update_motion_and_detect s dx dy now).2 = none := by
  unfold update_motion_and_detect
  dsimp only
  by_cases hcool : now -
      ({ s with
        ema_dx := EMA_ALPHA * dx + (1 - EMA_ALPHA) * s.ema_dx,
        ema_dy := EMA_ALPHA * dy + (1 - EMA_ALPHA) * s.ema_dy } : State).last_action_time < COOLDOWN
  · rw [if_pos hcool]
  · rw [if_neg hcool,
      if_neg (fun hc : _ ∧ _ => absurd hc.2 (not_lt.mpr (le_of_eq htie.symm))),
      if_neg (fun hc : _ ∧ _ => absurd hc.2 (not_lt.mpr (le_of_eq htie)))]

theorem motion_ignores_holds (s : State) (a b : Option ℚ) (dx dy now : ℚ) :
    (update_motion_and_detect { s with fist_start := a, open_start := b } dx dy now).2 =
      (update_motion_and_detect s dx dy now).2 := by
  unfold update_motion_and_detect
  dsimp only
  split_ifs <;> rfl

end GestureDrop

namespace GestureDrop

theorem copy_phase_spec (s : State) (tf : ℕ) (now : ℚ) (ext : ExtCalls)
    (e : GestureEvent) (h : (copy_phase s tf now ext).2 = some e) :
    e = GestureEvent.Copy ∧ tf = 0 ∧ s.copy_confirmed = false ∧
      (copy_phase s tf now ext).1.copy_confirmed = true := by
  unfold copy_phase at h ⊢
  by_cases htf : tf = 0
  · rw [if_pos htf] at h ⊢
    rcases hfs : s.fist_start with _ | t0
    · rw [hfs] at h; exact Option.noConfusion h
    · rw [hfs] at h
      dsimp only at h ⊢
      by_cases hfire : now - t0 > GESTURE_HOLD_TIME ∧ s.copy_confirmed = false
      · rw [if_pos hfire] at h ⊢
        dsimp only at h ⊢
        by_cases hok : ext.hotkey_copy_ok = true
        · rw [if_pos hok] at h
          injection h with h
          refine ⟨h.symm, htf, hfire.2, ?_⟩
          unfold copy_action
          rw [if_pos hok]
        · rw [if_neg hok] at h; exact Option.noConfusion h
      · rw [if_neg hfire] at h; exact Option.noConfusion h
  · rw [if_neg htf] at h; exact Option.noConfusion h

theorem paste_phase_spec (s : State) (tf : ℕ) (now : ℚ) (ext : ExtCalls)
    (e : GestureEvent) (h : (paste_phase s tf now ext).2 = some e) :
    e = GestureEvent.Paste ∧ tf = 5 ∧ s.copy_confirmed = true ∧
      (paste_phase s tf now ext).1.copy_confirmed = false := by
  unfold paste_phase at h ⊢
  by_cases htf : tf = 5
  · rw [if_pos htf] at h ⊢
    rcases hfs : s.open_start with _ | t0
    · rw [hfs] at h; exact Option.noConfusion h
    · rw [hfs] at h
      dsimp only at h ⊢
      by_cases hfire : now - t0 > GESTURE_HOLD_TIME ∧ s.copy_confirmed = true
      · rw [if_pos hfire] at h ⊢
        dsimp only at h ⊢
        by_cases hok : ext.hotkey_paste_ok = true
        · rw [if_pos hok] at h
          injection h with h
          refine ⟨h.symm, htf, hfire.2, ?_⟩
          unfold paste_action
          rw [if_pos hok]
        · rw [if_neg hok] at h; exact Option.noConfusion h
      · rw [if_neg hfire] at h; exact Option.noConfusion h
  · rw [if_neg htf] at h; exact Option.noConfusion h

theorem screenshot_phase_spec (s : State) (fingers : List ℕ) (th idx : Landmark)
    (now : ℚ) (ext : ExtCalls) (e : GestureEvent)
    (h : (screenshot_phase s fingers th idx now ext).2 = some e) :
    e = GestureEvent.Screenshot ∧ fingers.getD 0 0 = 1 ∧ fingers.getD 1 0 = 1 ∧
      (fingers.drop 2).sum = 0 := by
  unfold screenshot_phase at h
  split at h
  case isTrue hshape =>
    dsimp only at h
    split at h
    case isTrue hc =>
      split at h
      case h_1 b64 heq => injection h with h; exact ⟨h.symm, hshape.1, hshape.2.1, hshape.2.2⟩
      case h_2 => exact Option.noConfusion h
    case isFalse => exact Option.noConfusion h
  case isFalse => exact Option.noConfusion h

theorem thumb_state_le (lm : ℕ → Option Landmark) : thumb_state lm ≤ 1 := by
  unfold thumb_state
  split
  · split <;> omega
  · omega

theorem finger_state_le (lm : ℕ → Option Landmark) (t : ℕ) : finger_state lm t ≤ 1 := by
  unfold finger_state
  split
  · split <;> omega
  · omega

end GestureDrop

theorem motion_not_shape (e : GestureEvent) (h : isMotionEvent e = true) :
    isHandShapeEvent e = false := by
  cases e <;> simp_all [isMotionEvent, isHandShapeEvent]

theorem shape_not_motion (e : GestureEvent) (h : isHandShapeEvent e = true) :
    isMotionEvent e = false := by
  cases e <;> simp_all [isMotionEvent, isHandShapeEvent]

theorem events_bounds (m c p sh : Option GestureEvent) (l : List GestureEvent)
    (hm : ∀ e, m = some e → isMotionEvent e = true)
    (hc : ∀ e, c = some e → isHandShapeEvent e = true)
    (hp : ∀ e, p = some e → isHandShapeEvent e = true)
    (hsh : ∀ e, sh = some e → isHandShapeEvent e = true)
    (hcp : c = none ∨ p = none) (hcs : c = none ∨ sh = none)
    (hps : p = none ∨ sh = none)
    (hl : l = [m, c, p, sh].reduceOption ∨ l = [c, p, sh, m].reduceOption) :
    (l.filter isMotionEvent).length ≤ 1 ∧
      (l.filter isHandShapeEvent).length ≤ 1 ∧ l.length ≤ 2 := by
  rcases m with _ | em <;> rcases c with _ | ec <;> rcases p with _ | ep <;>
    rcases sh with _ | esh <;>
    (try rcases hl with rfl | rfl) <;>
    simp_all [List.reduceOption, List.filter_cons, motion_not_shape, shape_not_motion]

namespace GestureDrop

theorem hold_phases_exclusive (s1 s2 s3 : State) (lmo : ℕ → Option Landmark)
    (th idx : Landmark) (now : ℚ) (ext : ExtCalls) :
    ((copy_phase s1 (finger_states_from_landmarks lmo).sum now ext).2 = none ∨
      (paste_phase s2 (finger_states_from_landmarks lmo).sum now ext).2 = none) ∧
    ((copy_phase s1 (finger_states_from_landmarks lmo).sum now ext).2 = none ∨
      (screenshot_phase s3 (finger_states_from_landmarks lmo) th idx now ext).2 = none) ∧
    ((paste_phase s2 (finger_states_from_landmarks lmo).sum now ext).2 = none ∨
      (screenshot_phase s3 (finger_states_from_landmarks lmo) th idx now ext).2 = none) := by
  have hb0 := thumb_state_le lmo
  have hb1 := finger_state_le lmo 8
  refine ⟨?_, ?_, ?_⟩
  · rcases h1 : (copy_phase s1 (finger_states_from_landmarks lmo).sum now ext).2 with _ | e1
    · exact Or.inl rfl
    rcases h2 : (paste_phase s2 (finger_states_from_landmarks lmo).sum now ext).2 with _ | e2
    · exact Or.inr rfl
    have t1 := (copy_phase_spec _ _ _ _ _ h1).2.1
    have t2 := (paste_phase_spec _ _ _ _ _ h2).2.1
    omega
  · rcases h1 : (copy_phase s1 (finger_states_from_landmarks lmo).sum now ext).2 with _ | e1
    · exact Or.inl rfl
    rcases h2 : (screenshot_phase s3 (finger_states_from_landmarks lmo) th idx now ext).2 with _ | e2
    · exact Or.inr rfl
    have t1 := (copy_phase_spec _ _ _ _ _ h1).2.1
    have t2 := (screenshot_phase_spec _ _ _ _ _ _ _ h2).2.1
    simp only [finger_states_from_landmarks, List.sum_cons, List.sum_nil,
      List.getD_cons_zero] at t1 t2
    omega
  · rcases h1 : (paste_phase s2 (finger_states_from_landmarks lmo).sum now ext).2 with _ | e1
    · exact Or.inl rfl
    rcases h2 : (screenshot_phase s3 (finger_states_from_landmarks lmo) th idx now ext).2 with _ | e2
    · exact Or.inr rfl
    have t1 := (paste_phase_spec _ _ _ _ _ h1).2.1
    have t2 := (screenshot_phase_spec _ _ _ _ _ _ _ h2).2.2.2
    simp only [finger_states_from_landmarks, List.sum_cons, List.sum_nil,
      List.drop, List.drop_succ_cons] at t1 t2
    omega

end GestureDrop

namespace GestureFileServer

theorem fs_motion_some_spec (s : State) (x y now : ℚ) (e : GestureEvent)
    (h : (detect_motion_gesture s x y now).2 = some e) :
    isMotionEvent e = true ∧ COOLDOWN ≤ now - s.last_action_time ∧
      (detect_motion_gesture s x y now).1.last_action_time = now := by
  unfold detect_motion_gesture at h ⊢
  dsimp only at h ⊢
  split_ifs at h ⊢ with hcool h1 h2 h3 h4
  all_goals first
    | exact Option.noConfusion h
    | (injection h with h; subst h; exact ⟨rfl, le_of_lt hcool, rfl⟩)

theorem fs_motion_none_of_recent (s : State) (x y now : ℚ)
    (h : now - s.last_action_time < COOLDOWN) :
    (detect_motion_gesture s x y now).2 = none := by
  unfold detect_motion_gesture
  dsimp only
  rw [if_neg (not_lt.mpr (le_of_lt h))]

theorem fs_copy_phase_spec (s : State) (tf : ℕ) (now : ℚ) (ext : ExtCalls)
    (e : GestureEvent) (h : (copy_phase s tf now ext).2 = some e) :
    e = GestureEvent.Copy ∧ tf = 0 ∧ s.copy_done = false ∧
      (copy_phase s tf now ext).1.copy_done = true := by
  unfold copy_phase at h ⊢
  by_cases htf : tf = 0
  · rw [if_pos htf] at h ⊢
    rcases hfs : s.fist_start_time with _ | t0
    · rw [hfs] at h; exact Option.noConfusion h
    · rw [hfs] at h
      dsimp only at h ⊢
      by_cases hfire : now - t0 > GESTURE_HOLD_TIME ∧ s.copy_done = false
      · rw [if_pos hfire] at h ⊢
        dsimp only at h ⊢
        by_cases hok : ext.hotkey_copy_ok = true
        · rw [if_pos hok] at h
          injection h with h
          refine ⟨h.symm, htf, hfire.2, ?_⟩
          unfold copy_action
          rw [if_pos hok]
        · rw [if_neg hok] at h; exact Option.noConfusion h
      · rw [if_neg hfire] at h; exact Option.noConfusion h
  · rw [if_neg htf] at h; exact Option.noConfusion h

theorem fs_paste_phase_spec (s : State) (tf : ℕ) (now : ℚ) (ext : ExtCalls)
    (e : GestureEvent) (h : (paste_phase s tf now ext).2 = some e) :
    e = GestureEvent.Paste ∧ tf = 5 ∧ s.copy_done = true ∧
      (paste_phase s tf now ext).1.copy_done = false := by
  unfold paste_phase at h ⊢
  by_cases htf : tf = 5
  · rw [if_pos htf] at h ⊢
    rcases hfs : s.open_start_time with _ | t0
    · rw [hfs] at h; exact Option.noConfusion h
    · rw [hfs] at h
      dsimp only at h ⊢
      by_cases hfire : now - t0 > GESTURE_HOLD_TIME ∧ s.copy_done = true
      · rw [if_pos hfire] at h ⊢
        dsimp only at h ⊢
        by_cases hok : ext.hotkey_paste_ok = true
        · rw [if_pos hok] at h
          injection h with h
          refine ⟨h.symm, htf, hfire.2, ?_⟩
          unfold paste_action
          rw [if_pos hok]
        · rw [if_neg hok] at h; exact Option.noConfusion h
      · rw [if_neg hfire] at h; exact Option.noConfusion h
  · rw [if_neg htf] at h; exact Option.noConfusion h

theorem fs_screenshot_phase_spec (s : State) (fingers : List ℕ)
    (thumb_tip index_tip : Landmark) (now : ℚ) (ext : ExtCalls) (e : GestureEvent)
    (h : (screenshot_phase s fingers thumb_tip index_tip now ext).2 = some e) :
    e = GestureEvent.Screenshot ∧ fingers.getD 0 0 = 1 ∧ fingers.getD 1 0 = 1 ∧
      (fingers.drop 2).sum = 0 := by
  unfold screenshot_phase at h
  split at h
  case isTrue hshape =>
    dsimp only at h
    split at h
    case isTrue hc =>
      split at h
      case h_1 b64 heq =>
        injection h with h; exact ⟨h.symm, hshape.1, hshape.2.1, hshape.2.2⟩
      case h_2 => exact Option.noConfusion h
    case isFalse => exact Option.noConfusion h
  case isFalse => exact Option.noConfusion h

theorem get_finger_states_eq (lm : ℕ → Option Landmark) :
    get_finger_states lm = GestureDrop.finger_states_from_landmarks lm := rfl

theorem fs_hold_phases_exclusive (s1 s2 s3 : State) (lmo : ℕ → Option Landmark)
    (th idx : Landmark) (now : ℚ) (ext : ExtCalls) :
    ((copy_phase s1 (get_finger_states lmo).sum now ext).2 = none ∨
      (paste_phase s2 (get_finger_states lmo).sum now ext).2 = none) ∧
    ((copy_phase s1 (get_finger_states lmo).sum now ext).2 = none ∨
      (screenshot_phase s3 (get_finger_states lmo) th idx now ext).2 = none) ∧
    ((paste_phase s2 (get_finger_states lmo).sum now ext).2 = none ∨
      (screenshot_phase s3 (get_finger_states lmo) th idx now ext).2 = none) := by
  have hb0 := GestureDrop.thumb_state_le lmo
  have hb1 := GestureDrop.finger_state_le lmo 8
  refine ⟨?_, ?_, ?_⟩
  · rcases h1 : (copy_phase s1 (get_finger_states lmo).sum now ext).2 with _ | e1
    · exact Or.inl rfl
    rcases h2 : (paste_phase s2 (get_finger_states lmo).sum now ext).2 with _ | e2
    · exact Or.inr rfl
    have t1 := (fs_copy_phase_spec _ _ _ _ _ h1).2.1
    have t2 := (fs_paste_phase_spec _ _ _ _ _ h2).2.1
    omega
  · rcases h1 : (copy_phase s1 (get_finger_states lmo).sum now ext).2 with _ | e1
    · exact Or.inl rfl
    rcases h2 : (screenshot_phase s3 (get_finger_states lmo) th idx now ext).2 with _ | e2
    · exact Or.inr rfl
    have t1 := (fs_copy_phase_spec _ _ _ _ _ h1).2.1
    have t2 := (fs_screenshot_phase_spec _ _ _ _ _ _ _ h2).2.1
    rw [get_finger_states_eq] at t1 t2
    simp only [GestureDrop.finger_states_from_landmarks, List.sum_cons, List.sum_nil,
      List.getD_cons_zero] at t1 t2
    omega
  · rcases h1 : (paste_phase s2 (get_finger_states lmo).sum now ext).2 with _ | e1
    · exact Or.inl rfl
    rcases h2 : (screenshot_phase s3 (get_finger_states lmo) th idx now ext).2 with _ | e2
    · exact Or.inr rfl
    have t1 := (fs_paste_phase_spec _ _ _ _ _ h1).2.1
    have t2 := (fs_screenshot_phase_spec _ _ _ _ _ _ _ h2).2.2.2
    rw [get_finger_states_eq] at t1 t2
    simp only [GestureDrop.finger_states_from_landmarks, List.sum_cons, List.sum_nil,
      List.drop, List.drop_succ_cons] at t1 t2
    omega

end GestureFileServer

namespace GestureDrop

theorem frame_bounds (s : State) (inp : Option (Fin 21 → Landmark)) (now : ℚ)
    (ext : ExtCalls) :
    (((frame s inp now ext).2).filter isMotionEvent).length ≤ 1 ∧
      (((frame s inp now ext).2).filter isHandShapeEvent).length ≤ 1 ∧
      ((frame s inp now ext).2).length ≤ 2 := by
  cases inp with
  | none => simp [frame]
  | some lm =>
    refine events_bounds _ _ _ _ _
      (fun e he => (motion_some_spec _ _ _ _ e he).1)
      (fun e he => by rw [(copy_phase_spec _ _ _ _ e he).1]; rfl)
      (fun e he => by rw [(paste_phase_spec _ _ _ _ e he).1]; rfl)
      (fun e he => by rw [(screenshot_phase_spec _ _ _ _ _ _ e he).1]; rfl)
      ?_ ?_ ?_ (Or.inl rfl)
    · exact (hold_phases_exclusive _ _ s (landmarkAt lm) (lm 4) (lm 8) now ext).1
    · exact (hold_phases_exclusive _ s _ _ _ _ now ext).2.1
    · exact (hold_phases_exclusive s _ _ _ _ _ now ext).2.2

end GestureDrop

namespace GestureFileServer

theorem fs_frame_bounds (s : State) (inp : Option (Fin 21 → Landmark)) (now : ℚ)
    (ext : ExtCalls) :
    (((frame s inp now ext).2).filter isMotionEvent).length ≤ 1 ∧
      (((frame s inp now ext).2).filter isHandShapeEvent).length ≤ 1 ∧
      ((frame s inp now ext).2).length ≤ 2 := by
  cases inp with
  | none => simp [frame]
  | some lm =>
    refine events_bounds _ _ _ _ _
      (fun e he => (fs_motion_some_spec _ _ _ _ e he).1)
      (fun e he => by rw [(fs_copy_phase_spec _ _ _ _ e he).1]; rfl)
      (fun e he => by rw [(fs_paste_phase_spec _ _ _ _ e he).1]; rfl)
      (fun e he => by rw [(fs_screenshot_phase_spec _ _ _ _ _ _ e he).1]; rfl)
      ?_ ?_ ?_ (Or.inr rfl)
    · exact (fs_hold_phases_exclusive _ _ s (landmarkAt lm) (lm 4) (lm 8) now ext).1
    · exact (fs_hold_phases_exclusive _ s _ _ _ _ now ext).2.1
    · exact (fs_hold_phases_exclusive s _ _ _ _ _ now ext).2.2

end GestureFileServer

namespace GestureDrop

theorem hand_frame_motion_mem (s : State) (lm : Fin 21 → Landmark) (now : ℚ)
    (ext : ExtCalls) (e : GestureEvent)
    (h : (update_motion_and_detect
        { s with pos_history := push_history s.pos_history (lm 8).x (lm 8).y }
        (window_dx (push_history s.pos_history (lm 8).x (lm 8).y))
        (window_dy (push_history s.pos_history (lm 8).x (lm 8).y)) now).2 = some e) :
    e ∈ (hand_frame s lm now ext).2 := by
  unfold hand_frame
  dsimp only
  rw [List.reduceOption_mem_iff, h]
  exact List.mem_cons_self _ _

end GestureDrop

/-! Claim theorems. -/

/-- Claim C1 as stated is false: the spec asserts that at most one
gesture event other than None is emitted per frame, but in this
concrete gesture_drop frame a stale over-threshold EMA fires Scroll Up
in the same loop iteration in which a completed fist hold fires Copy —
two non-None events in one frame. -/
theorem C1_counterexample :
    GestureEvent.ScrollUp ∈ (GestureDrop.frame staleFistState (some fistLm) 10 extOK).2 ∧
      GestureEvent.Copy ∈ (GestureDrop.frame staleFistState (some fistLm) 10 extOK).2 ∧
      GestureEvent.ScrollUp ≠ GestureEvent.Copy := by
  with_unfolding_all decide

/-- Claim C1, amended: in both loops a frame emits at most one motion
event (scroll or tab) and at most one hand-shape event (Copy, Paste or
Screenshot) — their finger configurations are mutually exclusive — but
a motion event can co-fire with a hand-shape event, so a frame emits at
most two events rather than at most one. -/
theorem C1_amended :
    (∀ s inp now ext,
      (((GestureDrop.frame s inp now ext).2).filter isMotionEvent).length ≤ 1 ∧
        (((GestureDrop.frame s inp now ext).2).filter isHandShapeEvent).length ≤ 1 ∧
        ((GestureDrop.frame s inp now ext).2).length ≤ 2) ∧
    (∀ s inp now ext,
      (((GestureFileServer.frame s inp now ext).2).filter isMotionEvent).length ≤ 1 ∧
        (((GestureFileServer.frame s inp now ext).2).filter isHandShapeEvent).length ≤ 1 ∧
        ((GestureFileServer.frame s inp now ext).2).length ≤ 2) :=
  ⟨fun s inp now ext => GestureDrop.frame_bounds s inp now ext,
   fun s inp now ext => GestureFileServer.fs_frame_bounds s inp now ext⟩

/-- Claim C2: in both loops, a Copy event fires only while the
copy-confirmation flag is unset and firing sets it (so Copy cannot fire
again within the same episode), and a Paste event fires only while the
flag is set and firing clears it (so a second Paste needs a new Copy). -/
theorem C2_one_shot_copy_paste :
    (∀ s tf now ext, (GestureDrop.copy_phase s tf now ext).2 = some GestureEvent.Copy →
      s.copy_confirmed = false ∧
        (GestureDrop.copy_phase s tf now ext).1.copy_confirmed = true) ∧
    (∀ s tf now ext, (GestureDrop.paste_phase s tf now ext).2 = some GestureEvent.Paste →
      s.copy_confirmed = true ∧
        (GestureDrop.paste_phase s tf now ext).1.copy_confirmed = false) ∧
    (∀ s tf now ext, (GestureFileServer.copy_phase s tf now ext).2 = some GestureEvent.Copy →
      s.copy_done = false ∧
        (GestureFileServer.copy_phase s tf now ext).1.copy_done = true) ∧
    (∀ s tf now ext, (GestureFileServer.paste_phase s tf now ext).2 = some GestureEvent.Paste →
      s.copy_done = true ∧
        (GestureFileServer.paste_phase s tf now ext).1.copy_done = false) :=
  ⟨fun s tf now ext h => (GestureDrop.copy_phase_spec s tf now ext _ h).2.2,
   fun s tf now ext h => (GestureDrop.paste_phase_spec s tf now ext _ h).2.2,
   fun s tf now ext h => (GestureFileServer.fs_copy_phase_spec s tf now ext _ h).2.2,
   fun s tf now ext h => (GestureFileServer.fs_paste_phase_spec s tf now ext _ h).2.2⟩

/-- Witness for C2: concrete firing copy and paste frames in both
files, with the flag transitions obtained from the theorem itself. -/
theorem C2_witness :
    (GestureDrop.copy_phase armedFistState 0 1 extOK).1.copy_confirmed = true ∧
      (GestureDrop.paste_phase armedOpenState 5 1 extOK).1.copy_confirmed = false ∧
      (GestureFileServer.copy_phase fArmedFistState 0 1 extOK).1.copy_done = true ∧
      (GestureFileServer.paste_phase fArmedOpenState 5 1 extOK).1.copy_done = false :=
  ⟨(C2_one_shot_copy_paste.1 armedFistState 0 1 extOK (by with_unfolding_all decide)).2,
   (C2_one_shot_copy_paste.2.1 armedOpenState 5 1 extOK (by with_unfolding_all decide)).2,
   (C2_one_shot_copy_paste.2.2.1 fArmedFistState 0 1 extOK (by with_unfolding_all decide)).2,
   (C2_one_shot_copy_paste.2.2.2 fArmedOpenState 5 1 extOK (by with_unfolding_all decide)).2⟩

/-- Claim C4 as stated is false: gesture_file_server.py exposes POST
/upload_clipboard, and handling this concrete request mutates the
shared clipboard slot. -/
theorem C4_counterexample :
    (GestureFileServer.upload_clipboard { type := ClipKind.empty, value := "" }
        { json_text := some "hi", image_file := none }).1 ≠
      { type := ClipKind.empty, value := "" } := by
  with_unfolding_all decide

/-- Claim C4, amended: in gesture_drop.py the HTTP interface is
read-only — both GET handlers leave the slot unchanged — and in
gesture_file_server.py the GET handlers are also read-only, but its
POST /upload_clipboard replaces the slot whenever the request carries
JSON text or an image file (only a payload-free request leaves the slot
unchanged). -/
theorem C4_amended :
    (∀ slot, (GestureDrop.api_get_clipboard slot).1 = slot) ∧
    (∀ slot ip, (GestureDrop.api_ip slot ip).1 = slot) ∧
    (∀ slot, (GestureFileServer.get_clipboard slot).1 = slot) ∧
    (∀ slot ip, (GestureFileServer.get_ip slot ip).1 = slot) ∧
    (∀ slot t, (GestureFileServer.upload_clipboard slot
      { json_text := some t, image_file := none }).1 =
        { type := ClipKind.text, value := t }) ∧
    (∀ slot b, (GestureFileServer.upload_clipboard slot
      { json_text := none, image_file := some b }).1 =
        { type := ClipKind.image, value := b }) ∧
    (∀ slot, (GestureFileServer.upload_clipboard slot
      { json_text := none, image_file := none }).1 = slot) :=
  ⟨fun _ => rfl, fun _ _ => rfl, fun _ => rfl, fun _ _ => rfl,
   fun _ _ => rfl, fun _ _ => rfl, fun _ => rfl⟩

/-- Claim C6 as stated is false for gesture_file_server.py: its loop
body has no branch for a frame without a hand, so on this concrete
no-hand frame the fist hold start is not reset and the motion history
is not cleared. -/
theorem C6_counterexample :
    (GestureFileServer.frame fStaleState none 10 extOK).1.fist_start_time = some 3 ∧
      (GestureFileServer.frame fStaleState none 10 extOK).1.x_history = [mkRat 1 2] := by
  with_unfolding_all decide

/-- Claim C6, amended: in gesture_drop.py a no-hand frame clears the
position history and resets both hold starts to not-started while
leaving every other field — including the pending copy confirmation —
unchanged; in gesture_file_server.py a no-hand frame leaves the whole
gesture state unchanged (nothing is cleared or reset). -/
theorem C6_amended :
    (∀ s now ext, (GestureDrop.frame s none now ext).1 =
      { s with pos_history := [], fist_start := none, open_start := none }) ∧
    (∀ s now ext, (GestureFileServer.frame s none now ext).1 = s) :=
  ⟨fun _ _ _ => rfl, fun _ _ _ => rfl⟩

/-- Claim C3 as stated is false: `safe_copy_to_shared` performs two
separate unguarded dict assignments, so a reader interleaved between
them observes the new kind paired with the prior value — a state that
is neither the prior pair nor the fully-written pair. -/
theorem C3_counterexample :
    ({ type := ClipKind.text, value := "IMG" } : SharedClipboard) ∈
        GestureDrop.safe_copy_to_shared_microstates
          { type := ClipKind.image, value := "IMG" } "hello" ∧
      ({ type := ClipKind.text, value := "IMG" } : SharedClipboard) ≠
        { type := ClipKind.image, value := "IMG" } ∧
      ({ type := ClipKind.text, value := "IMG" } : SharedClipboard) ≠
        GestureDrop.safe_copy_to_shared { type := ClipKind.image, value := "IMG" } "hello" := by
  with_unfolding_all decide

/-- Claim C3, amended: a read concurrent with `safe_copy_to_shared`
observes the prior pair, the fully-written new pair, or the single
half-written intermediate whose kind is already text but whose value is
still the prior one; no other mixed state is observable. -/
theorem C3_amended (slot : SharedClipboard) (text : String) (obs : SharedClipboard)
    (h : obs ∈ GestureDrop.safe_copy_to_shared_microstates slot text) :
    obs = slot ∨ obs = GestureDrop.safe_copy_to_shared slot text ∨
      (obs.type = ClipKind.text ∧ obs.value = slot.value) := by
  unfold GestureDrop.safe_copy_to_shared_microstates at h
  unfold GestureDrop.safe_copy_to_shared
  by_cases ht : text = ""
  · rw [if_pos ht] at h
    simp only [List.mem_singleton] at h
    exact Or.inl h
  · rw [if_neg ht] at h
    rw [if_neg ht]
    simp only [List.mem_cons, List.mem_singleton, List.not_mem_nil, or_false] at h
    rcases h with h | h | h
    · exact Or.inl h
    · subst h
      exact Or.inr (Or.inr ⟨rfl, rfl⟩)
    · exact Or.inr (Or.inl h)

/-- Witness for C3 at the interleaving of the counterexample. -/
theorem C3_witness :
    ({ type := ClipKind.text, value := "IMG" } : SharedClipboard) =
        { type := ClipKind.image, value := "IMG" } ∨
      ({ type := ClipKind.text, value := "IMG" } : SharedClipboard) =
        GestureDrop.safe_copy_to_shared { type := ClipKind.image, value := "IMG" } "hello" ∨
      (({ type := ClipKind.text, value := "IMG" } : SharedClipboard).type = ClipKind.text ∧
        ({ type := ClipKind.text, value := "IMG" } : SharedClipboard).value = "IMG") :=
  C3_amended { type := ClipKind.image, value := "IMG" } "hello"
    { type := ClipKind.text, value := "IMG" } (by with_unfolding_all decide)

/-- Claim C5: in both files a motion event can fire only when the
shared cooldown clock is at least COOLDOWN old, firing resets the clock
to the current time (so a sustained displacement cannot fire twice
within COOLDOWN), any younger clock yields no motion event, and in
gesture_drop the emitted motion event is independent of the two
hold-gesture timers. -/
theorem C5_motion_cooldown :
    (∀ s dx dy now e, (GestureDrop.update_motion_and_detect s dx dy now).2 = some e →
      GestureDrop.COOLDOWN ≤ now - s.last_action_time ∧
        (GestureDrop.update_motion_and_detect s dx dy now).1.last_action_time = now) ∧
    (∀ s dx dy now, now - s.last_action_time < GestureDrop.COOLDOWN →
      (GestureDrop.update_motion_and_detect s dx dy now).2 = none) ∧
    (∀ s a b dx dy now,
      (GestureDrop.update_motion_and_detect
          { s with fist_start := a, open_start := b } dx dy now).2 =
        (GestureDrop.update_motion_and_detect s dx dy now).2) ∧
    (∀ s x y now e, (GestureFileServer.detect_motion_gesture s x y now).2 = some e →
      GestureFileServer.COOLDOWN ≤ now - s.last_action_time ∧
        (GestureFileServer.detect_motion_gesture s x y now).1.last_action_time = now) ∧
    (∀ s x y now, now - s.last_action_time < GestureFileServer.COOLDOWN →
      (GestureFileServer.detect_motion_gesture s x y now).2 = none) :=
  ⟨fun s dx dy now e h => (GestureDrop.motion_some_spec s dx dy now e h).2,
   fun s dx dy now h => GestureDrop.motion_none_of_recent s dx dy now h,
   fun s a b dx dy now => GestureDrop.motion_ignores_holds s a b dx dy now,
   fun s x y now e h => (GestureFileServer.fs_motion_some_spec s x y now e h).2,
   fun s x y now h => GestureFileServer.fs_motion_none_of_recent s x y now h⟩

/-- Witness for C5: a concrete firing frame in each file (stale
downward velocity, expired cooldown) and a concrete silent frame within
the cooldown window. -/
theorem C5_witness :
    (GestureDrop.COOLDOWN ≤ 10 - staleEmaState.last_action_time ∧
      (GestureDrop.update_motion_and_detect staleEmaState 0 0 10).1.last_action_time = 10) ∧
    (GestureDrop.update_motion_and_detect staleEmaState 0 0 (mkRat 1 2)).2 = none ∧
    (GestureFileServer.COOLDOWN ≤ 10 - fStaleState.last_action_time ∧
      (GestureFileServer.detect_motion_gesture fStaleState (mkRat 1 2) 0 10).1.last_action_time = 10) ∧
    (GestureFileServer.detect_motion_gesture fStaleState (mkRat 1 2) 0 (mkRat 1 2)).2 = none :=
  ⟨C5_motion_cooldown.1 staleEmaState 0 0 10 GestureEvent.ScrollUp (by with_unfolding_all decide),
   C5_motion_cooldown.2.1 staleEmaState 0 0 (mkRat 1 2) (by with_unfolding_all decide),
   C5_motion_cooldown.2.2.2.1 fStaleState (mkRat 1 2) 0 10 GestureEvent.ScrollUp
     (by with_unfolding_all decide),
   C5_motion_cooldown.2.2.2.2 fStaleState (mkRat 1 2) 0 (mkRat 1 2)
     (by with_unfolding_all decide)⟩

/-- Claim C7: motion classification in gesture_drop is decided by
strict axis dominance over the smoothed values — with the cooldown
expired, a dominant over-threshold vertical EMA fires Scroll Up when
negative and Scroll Down otherwise, a dominant over-threshold
horizontal EMA fires Next Tab when positive and Previous Tab otherwise,
and an exact magnitude tie fires nothing (even when both thresholds are
exceeded). -/
theorem C7_axis_dominance (s : GestureDrop.State) (dx dy now : ℚ)
    (hcool : GestureDrop.COOLDOWN ≤ now - s.last_action_time) :
    ((|GestureDrop.EMA_ALPHA * dy + (1 - GestureDrop.EMA_ALPHA) * s.ema_dy| >
          GestureDrop.SCROLL_THRESHOLD ∧
        |GestureDrop.EMA_ALPHA * dy + (1 - GestureDrop.EMA_ALPHA) * s.ema_dy| >
          |GestureDrop.EMA_ALPHA * dx + (1 - GestureDrop.EMA_ALPHA) * s.ema_dx|) →
      (GestureDrop.update_motion_and_detect s dx dy now).2 =
        some (if GestureDrop.EMA_ALPHA * dy + (1 - GestureDrop.EMA_ALPHA) * s.ema_dy < 0 then
          GestureEvent.ScrollUp else GestureEvent.ScrollDown)) ∧
    ((|GestureDrop.EMA_ALPHA * dx + (1 - GestureDrop.EMA_ALPHA) * s.ema_dx| >
          GestureDrop.TAB_THRESHOLD ∧
        |GestureDrop.EMA_ALPHA * dx + (1 - GestureDrop.EMA_ALPHA) * s.ema_dx| >
          |GestureDrop.EMA_ALPHA * dy + (1 - GestureDrop.EMA_ALPHA) * s.ema_dy|) →
      (GestureDrop.update_motion_and_detect s dx dy now).2 =
        some (if GestureDrop.EMA_ALPHA * dx + (1 - GestureDrop.EMA_ALPHA) * s.ema_dx > 0 then
          GestureEvent.NextTab else GestureEvent.PrevTab)) ∧
    (|GestureDrop.EMA_ALPHA * dx + (1 - GestureDrop.EMA_ALPHA) * s.ema_dx| =
        |GestureDrop.EMA_ALPHA * dy + (1 - GestureDrop.EMA_ALPHA) * s.ema_dy| →
      (GestureDrop.update_motion_and_detect s dx dy now).2 = none) :=
  ⟨fun h => GestureDrop.motion_scroll_spec s dx dy now hcool h.1 h.2,
   fun h => GestureDrop.motion_tab_spec s dx dy now hcool h.1 h.2,
   fun h => GestureDrop.motion_tie_none s dx dy now h⟩

/-- Witness for C7: from zero EMA state, a downward displacement fires
Scroll Up, a rightward one fires Next Tab, and an exact diagonal tie —
with both axes over their thresholds — fires nothing. -/
theorem C7_witness :
    (GestureDrop.update_motion_and_detect idleState 0 (-(mkRat 2 5)) 10).2 =
        some GestureEvent.ScrollUp ∧
      (GestureDrop.update_motion_and_detect idleState (mkRat 2 5) 0 10).2 =
        some GestureEvent.NextTab ∧
      (GestureDrop.update_motion_and_detect idleState (mkRat 2 5) (mkRat 2 5) 10).2 = none := by
  refine ⟨?_, ?_, ?_⟩
  · exact ((C7_axis_dominance idleState 0 (-(mkRat 2 5)) 10 (by with_unfolding_all decide)).1
      ⟨by with_unfolding_all decide, by with_unfolding_all decide⟩).trans
      (by with_unfolding_all decide)
  · exact ((C7_axis_dominance idleState (mkRat 2 5) 0 10 (by with_unfolding_all decide)).2.1
      ⟨by with_unfolding_all decide, by with_unfolding_all decide⟩).trans
      (by with_unfolding_all decide)
  · exact (C7_axis_dominance idleState (mkRat 2 5) (mkRat 2 5) 10
      (by with_unfolding_all decide)).2.2 (by with_unfolding_all decide)

namespace GestureDrop

theorem thumb_state_some (lm : ℕ → Option Landmark) (a b : Landmark)
    (ha : lm 4 = some a) (hb : lm 2 = some b) :
    thumb_state lm = if a.x < b.x then 1 else 0 := by
  unfold thumb_state
  rw [ha, hb]

theorem thumb_state_none (lm : ℕ → Option Landmark)
    (h : lm 4 = none ∨ lm 2 = none) : thumb_state lm = 0 := by
  unfold thumb_state
  rcases h with h | h
  · rw [h]
  · rcases h4 : lm 4 with _ | a
    · rfl
    · rw [h]

theorem finger_state_some (lm : ℕ → Option Landmark) (t : ℕ) (a b : Landmark)
    (ha : lm t = some a) (hb : lm (t - 2) = some b) :
    finger_state lm t = if a.y < b.y then 1 else 0 := by
  unfold finger_state
  rw [ha, hb]

theorem finger_state_none (lm : ℕ → Option Landmark) (t : ℕ)
    (h : lm t = none ∨ lm (t - 2) = none) : finger_state lm t = 0 := by
  unfold finger_state
  rcases h with h | h
  · rw [h]
  · rcases h4 : lm t with _ | a
    · rfl
    · rw [h]

end GestureDrop

/-- Claim C8: an OS clipboard read failure during Copy is absorbed and
leaves the state exactly as a contentless read would — the shared slot
is untouched and the confirmation flag still advances (it is set on a
fired copy, read failure or not) — and an OS clipboard write failure
during Paste is invisible to the gesture state: the outcome of the
write call never influences the resulting flags. Holds in both files;
the warning print accompanying each absorbed failure carries no state. -/
theorem C8_clipboard_failure_invisible :
    (∀ (s : GestureDrop.State) (ext : ExtCalls),
      GestureDrop.copy_action s { ext with clipboard_read := none } =
        GestureDrop.copy_action s { ext with clipboard_read := some "" }) ∧
    (∀ (s : GestureDrop.State) (ext : ExtCalls), (GestureDrop.copy_action s
      { ext with clipboard_read := none }).shared_clipboard = s.shared_clipboard) ∧
    (∀ (s : GestureDrop.State) (ext : ExtCalls), (GestureDrop.copy_action s
      { ext with hotkey_copy_ok := true, clipboard_read := none }).copy_confirmed = true) ∧
    (∀ (s : GestureDrop.State) (ext : ExtCalls) (b c : Bool),
      GestureDrop.paste_action s { ext with clipboard_write_ok := b } =
        GestureDrop.paste_action s { ext with clipboard_write_ok := c }) ∧
    (∀ (s : GestureFileServer.State) (ext : ExtCalls),
      GestureFileServer.copy_action s { ext with clipboard_read := none } =
        GestureFileServer.copy_action s { ext with clipboard_read := some "" }) ∧
    (∀ (s : GestureFileServer.State) (ext : ExtCalls), (GestureFileServer.copy_action s
      { ext with clipboard_read := none }).shared_clipboard = s.shared_clipboard) ∧
    (∀ (s : GestureFileServer.State) (ext : ExtCalls), (GestureFileServer.copy_action s
      { ext with hotkey_copy_ok := true, clipboard_read := none }).copy_done = true) ∧
    (∀ (s : GestureFileServer.State) (ext : ExtCalls) (b c : Bool),
      GestureFileServer.paste_action s { ext with clipboard_write_ok := b } =
        GestureFileServer.paste_action s { ext with clipboard_write_ok := c }) := by
  refine ⟨fun s ext => ?_, fun s ext => ?_, fun s ext => rfl, fun s ext b c => rfl,
    fun s ext => ?_, fun s ext => ?_, fun s ext => rfl, fun s ext b c => rfl⟩
  · cases h : ext.hotkey_copy_ok <;> simp [GestureDrop.copy_action, h]
  · cases h : ext.hotkey_copy_ok <;> simp [GestureDrop.copy_action, h]
  · cases h : ext.hotkey_copy_ok <;> simp [GestureFileServer.copy_action, h]
  · cases h : ext.hotkey_copy_ok <;> simp [GestureFileServer.copy_action, h]

/-- Claim C9: the finger vector is computed per frame by exactly these
rules — the thumb flag is 1 iff tip 4's x is strictly less than
joint 2's x (the outward side under the mirrored camera), each other
finger's flag is 1 iff its tip's y is strictly less than the y of the
joint two landmarks below (tips 8, 12, 16, 20), and a failed landmark
lookup on either index yields 0 (closed) instead of an error; the two
files' finger helpers are the same function. -/
theorem C9_finger_rules :
    (∀ lm a b, lm 4 = some a → lm 2 = some b →
      (GestureDrop.finger_states_from_landmarks lm).getD 0 0 =
        if a.x < b.x then 1 else 0) ∧
    (∀ lm, lm 4 = none ∨ lm 2 = none →
      (GestureDrop.finger_states_from_landmarks lm).getD 0 0 = 0) ∧
    (∀ lm k, k < 4 → ∀ a b, lm ([8, 12, 16, 20].getD k 0) = some a →
      lm ([8, 12, 16, 20].getD k 0 - 2) = some b →
      (GestureDrop.finger_states_from_landmarks lm).getD (k + 1) 0 =
        if a.y < b.y then 1 else 0) ∧
    (∀ lm k, k < 4 →
      (lm ([8, 12, 16, 20].getD k 0) = none ∨ lm ([8, 12, 16, 20].getD k 0 - 2) = none) →
      (GestureDrop.finger_states_from_landmarks lm).getD (k + 1) 0 = 0) ∧
    (∀ lm, GestureFileServer.get_finger_states lm =
      GestureDrop.finger_states_from_landmarks lm) := by
  refine ⟨?_, ?_, ?_, ?_, fun lm => GestureFileServer.get_finger_states_eq lm⟩
  · intro lm a b ha hb
    simp only [GestureDrop.finger_states_from_landmarks, List.getD_cons_zero]
    exact GestureDrop.thumb_state_some lm a b ha hb
  · intro lm h
    simp only [GestureDrop.finger_states_from_landmarks, List.getD_cons_zero]
    exact GestureDrop.thumb_state_none lm h
  · intro lm k hk a b ha hb
    interval_cases k <;>
      simp only [List.getD_cons_zero, List.getD_cons_succ] at ha hb ⊢ <;>
      simp only [GestureDrop.finger_states_from_landmarks, List.getD_cons_zero,
        List.getD_cons_succ] <;>
      exact GestureDrop.finger_state_some lm _ a b ha hb
  · intro lm k hk h
    interval_cases k <;>
      simp only [List.getD_cons_zero, List.getD_cons_succ] at h ⊢ <;>
      simp only [GestureDrop.finger_states_from_landmarks, List.getD_cons_zero,
        List.getD_cons_succ] <;>
      exact GestureDrop.finger_state_none lm _ h

/-- Witness for C9: the open-palm hand yields an extended thumb, the
fist hand yields a curled index finger, and the always-failing lookup
yields closed for both the thumb and the pinky. -/
theorem C9_witness :
    (GestureDrop.finger_states_from_landmarks (landmarkAt palmLm)).getD 0 0 = 1 ∧
      (GestureDrop.finger_states_from_landmarks noLm).getD 0 0 = 0 ∧
      (GestureDrop.finger_states_from_landmarks (landmarkAt fistLm)).getD 1 0 = 0 ∧
      (GestureDrop.finger_states_from_landmarks noLm).getD 4 0 = 0 := by
  refine ⟨?_, ?_, ?_, ?_⟩
  · exact (C9_finger_rules.1 (landmarkAt palmLm)
      { x := mkRat 17 21, y := mkRat 17 21 } { x := mkRat 19 21, y := mkRat 19 21 }
      (by with_unfolding_all decide) (by with_unfolding_all decide)).trans
      (by with_unfolding_all decide)
  · exact C9_finger_rules.2.1 noLm (Or.inl rfl)
  · exact (C9_finger_rules.2.2.1 (landmarkAt fistLm) 0 (by decide)
      { x := mkRat 1 2, y := mkRat 1 2 } { x := mkRat 1 2, y := mkRat 1 2 }
      (by with_unfolding_all decide) (by with_unfolding_all decide)).trans
      (by with_unfolding_all decide)
  · exact C9_finger_rules.2.2.2.1 noLm 3 (by decide) (Or.inl rfl)

/-- Claim C10: in gesture_drop.py the EMA velocity pair survives hand
loss — a no-hand frame clears the position history but leaves ema_dx
and ema_dy untouched — and as a consequence, on the first hand frame
after reacquisition (empty history, hence zero windowed displacement) a
stale over-threshold, axis-dominant ema_dy still fires a scroll event
once the cooldown has expired. -/
theorem C10_ema_survives_hand_loss :
    (∀ s now ext, (GestureDrop.frame s none now ext).1.ema_dx = s.ema_dx ∧
      (GestureDrop.frame s none now ext).1.ema_dy = s.ema_dy ∧
      (GestureDrop.frame s none now ext).1.pos_history = []) ∧
    (∀ (s : GestureDrop.State) (lm : Fin 21 → Landmark) (now : ℚ) (ext : ExtCalls),
      s.pos_history = [] →
      |(1 - GestureDrop.EMA_ALPHA) * s.ema_dy| > GestureDrop.SCROLL_THRESHOLD →
      |(1 - GestureDrop.EMA_ALPHA) * s.ema_dy| > |(1 - GestureDrop.EMA_ALPHA) * s.ema_dx| →
      GestureDrop.COOLDOWN ≤ now - s.last_action_time →
      ∃ e ∈ (GestureDrop.frame s (some lm) now ext).2, isMotionEvent e = true) := by
  constructor
  · exact fun s now ext => ⟨rfl, rfl, rfl⟩
  · intro s lm now ext hh hdy hdom hcool
    have hp : GestureDrop.push_history s.pos_history (lm 8).x (lm 8).y =
        [((lm 8).x, (lm 8).y)] := by
      rw [hh]; rfl
    have hdx0 : GestureDrop.window_dx
        (GestureDrop.push_history s.pos_history (lm 8).x (lm 8).y) = 0 := by
      rw [hp]; rfl
    have hdy0 : GestureDrop.window_dy
        (GestureDrop.push_history s.pos_history (lm 8).x (lm 8).y) = 0 := by
      rw [hp]; rfl
    have hfire := GestureDrop.motion_scroll_spec
      { s with pos_history := GestureDrop.push_history s.pos_history (lm 8).x (lm 8).y }
      (GestureDrop.window_dx (GestureDrop.push_history s.pos_history (lm 8).x (lm 8).y))
      (GestureDrop.window_dy (GestureDrop.push_history s.pos_history (lm 8).x (lm 8).y))
      now hcool
      (by rw [hdy0, mul_zero, zero_add]; exact hdy)
      (by rw [hdx0, hdy0, mul_zero, zero_add, zero_add]; exact hdom)
    refine ⟨_, GestureDrop.hand_frame_motion_mem s lm now ext _ hfire, ?_⟩
    split_ifs <;> rfl

/-- Witness for C10: after hand loss left a stale downward EMA, the
first reacquired palm frame fires a motion event even though the
windowed displacement of its single-sample history is zero. -/
theorem C10_witness :
    ∃ e ∈ (GestureDrop.frame staleEmaState (some palmLm) 10 extOK).2,
      isMotionEvent e = true :=
  C10_ema_survives_hand_loss.2 staleEmaState palmLm 10 extOK rfl
    (by with_unfolding_all decide) (by with_unfolding_all decide)
    (by with_unfolding_all decide)
